import Mathlib

/-!
Shallow embedding of the X-Ray SDK trace-capture core (models.py, config.py,
client.py, context.py, sampling.py) and proofs of the specified properties.
UUIDs are modelled as natural-number identifiers, timestamps as natural-number
ticks, and Python real division over the rationals.
-/

namespace XRay

/-- Status of a pipeline run (models.RunStatus). -/
inductive RunStatus where
  | RUNNING
  | SUCCESS
  | FAILURE
  | PARTIAL
  deriving DecidableEq, Repr

/-- Standardized step types (models.StepType). -/
inductive StepType where
  | LLM
  | SEARCH
  | FILTER
  | RANK
  | SELECT
  | TRANSFORM
  | CUSTOM
  deriving DecidableEq, Repr

/-- A JSON-like metadata value. The excInfo record models the nested
dict written by StepContext.__exit__ for an escaping exception. -/
inductive MetaValue where
  | str (s : String)
  | int (n : Int)
  | bool (b : Bool)
  | excInfo (ty : String) (message : String)
  deriving DecidableEq, Repr

/-- Python dict with string keys, as an insertion-ordered association list. -/
abbrev Dict := List (String × MetaValue)

/-- Python dict lookup d[k]. -/
def Dict.getKey : Dict → String → Option MetaValue
  | [], _ => none
  | (k, v) :: rest, key => if k = key then some v else Dict.getKey rest key

/-- Python dict assignment d[k] = v: overwrite in place or append. -/
def Dict.setKey : Dict → String → MetaValue → Dict
  | [], key, v => [(key, v)]
  | (k, w) :: rest, key, v =>
      if k = key then (k, v) :: rest else (k, w) :: Dict.setKey rest key v

/-- Fields of models.StepModel used by the verified claims. candidates_data
is not tracked here; the sampling functions are modelled standalone. -/
structure StepModel where
  id : Nat := 0
  run_id : Option Nat := none
  step_name : String
  step_type : StepType
  sequence : Nat := 0
  start_time : Option Nat := none
  end_time : Option Nat := none
  inputs : Dict := []
  outputs : Dict := []
  reasoning : String := ""
  candidates_in : Option Int := none
  candidates_out : Option Int := none
  filters_applied : Dict := []
  metadata : Dict := []
  deriving Repr

/-- models.StepModel.reduction_rate. The Python guard
`if self.candidates_in and self.candidates_out is not None` treats a zero
candidates_in (falsy) the same as an absent one, so the inner
`if self.candidates_in == 0` guard can never fire; both collapse to the
single zero test below. Division is Python real division, modelled on ℚ. -/
def StepModel.reduction_rate (s : StepModel) : Option ℚ :=
  match s.candidates_in, s.candidates_out with
  | some i, some o =>
      if i = 0 then none
      else some (((i - o : Int) : ℚ) / ((i : Int) : ℚ))
  | _, _ => none

/-- Fields of models.RunModel used by the verified claims. -/
structure RunModel where
  id : Nat := 0
  pipeline_name : String
  pipeline_version : String := "1.0.0"
  start_time : Nat := 0
  end_time : Option Nat := none
  status : RunStatus := RunStatus.RUNNING
  metadata : Dict := []
  final_output : Option Dict := none
  deriving Repr

/-- RunModel construction as performed by RunContext.__init__: a fresh run
starts in the RUNNING state with no end time. -/
def RunModel.init (pipeline_name : String) (pipeline_version : String)
    (id : Nat) (start_time : Nat) (metadata : Dict) : RunModel :=
  { id := id, pipeline_name := pipeline_name,
    pipeline_version := pipeline_version, start_time := start_time,
    metadata := metadata }

/-- models.RunModel.mark_complete: unconditionally sets end_time and status,
and overwrites final_output when one is given. -/
def RunModel.mark_complete (r : RunModel) (status : RunStatus)
    (final_output : Option Dict) (now : Nat) : RunModel :=
  { r with
    end_time := some now,
    status := status,
    final_output := match final_output with
      | some fo => some fo
      | none => r.final_output }

/-- Fallback policy of the delivery client (config.FallbackMode). -/
inductive FallbackMode where
  | SILENT
  | LOG
  | RAISE
  deriving DecidableEq, Repr

/-- config.XRayConfig with its default values (environment overrides are a
deployment concern outside this embedding). -/
structure XRayConfig where
  api_url : String := "http://localhost:8000"
  enabled : Bool := true
  fallback_mode : FallbackMode := FallbackMode.SILENT
  fallback_log_path : String := ".xray/failed_traces/"
  timeout_seconds : ℚ := 5
  async_mode : Bool := true
  max_candidates_full_capture : Nat := 100
  sample_size_large : Nat := 50
  sample_size_medium : Nat := 100
  verbose : Bool := false
  deriving Repr

/-- Exceptions visible to the embedding: the transport errors raised by
httpx, the RuntimeError synthesized by the client, and arbitrary
application exceptions carrying their Python type name and message. -/
inductive Exc where
  | timeoutExc
  | connectExc
  | otherExc (msg : String)
  | runtimeError (msg : String)
  | validationError (msg : String)
  | appError (ty : String) (msg : String)
  deriving DecidableEq, Repr

/-- Python type(e).__name__ for the modelled exceptions. Pydantic's
ValidationError is a ValueError subclass. -/
def Exc.typeName : Exc → String
  | Exc.timeoutExc => "TimeoutException"
  | Exc.connectExc => "ConnectError"
  | Exc.otherExc _ => "Exception"
  | Exc.runtimeError _ => "RuntimeError"
  | Exc.validationError _ => "ValidationError"
  | Exc.appError ty _ => ty

/-- Python str(e) for the modelled exceptions. -/
def Exc.message : Exc → String
  | Exc.timeoutExc => "timed out"
  | Exc.connectExc => "connection failed"
  | Exc.otherExc m => m
  | Exc.runtimeError m => m
  | Exc.validationError m => m
  | Exc.appError _ m => m

/-- Outcome of the single httpx.post transport attempt made by send. -/
inductive TransportResult where
  | status (code : Nat)
  | timeoutFail
  | connectFail
  | otherFail (msg : String)
  deriving DecidableEq, Repr

/-- Whether the transport attempt yields the 2xx success codes send accepts. -/
def TransportResult.isSuccess : TransportResult → Bool
  | TransportResult.status code => code = 200 || code = 201
  | _ => false

/-- client.XRayClient._handle_failure. writeOk is the outcome of
_write_to_log (which catches its own errors and returns a Bool). -/
def handle_failure (cfg : XRayConfig) (exc : Option Exc) (writeOk : Bool) :
    Except Exc Bool :=
  match cfg.fallback_mode with
  | FallbackMode.SILENT => Except.ok false
  | FallbackMode.LOG => Except.ok writeOk
  | FallbackMode.RAISE =>
      match exc with
      | some e => Except.error e
      | none => Except.error (Exc.runtimeError
          ("Failed to send trace to X-Ray API at " ++ cfg.api_url))

/-- client.XRayClient.send: the returned pair is the raised-or-returned
outcome and the number of httpx.post transport attempts performed. -/
def send (cfg : XRayConfig) (transport : TransportResult) (writeOk : Bool) :
    Except Exc Bool × Nat :=
  if cfg.enabled = false then (Except.ok true, 0)
  else
    match transport with
    | TransportResult.status code =>
        if code = 200 ∨ code = 201 then (Except.ok true, 1)
        else (handle_failure cfg none writeOk, 1)
    | TransportResult.timeoutFail =>
        (handle_failure cfg (some Exc.timeoutExc) writeOk, 1)
    | TransportResult.connectFail =>
        (handle_failure cfg (some Exc.connectExc) writeOk, 1)
    | TransportResult.otherFail m =>
        (handle_failure cfg (some (Exc.otherExc m)) writeOk, 1)

/-- client.send_trace as observed by the calling thread: in async mode the
send happens on a detached daemon thread and the caller sees an immediate
True; in sync mode the caller sees the outcome of client.send. -/
def send_trace (cfg : XRayConfig) (transport : TransportResult)
    (writeOk : Bool) : Except Exc Bool :=
  if cfg.async_mode then Except.ok true
  else (send cfg transport writeOk).1

/-- Whether a list of sequence numbers equals its sorted version: the
Python comparison sequences != sorted(sequences) fails exactly when some
adjacent pair decreases. -/
def seqsNondecreasing : List Nat → Bool
  | [] => true
  | [_] => true
  | a :: b :: rest => decide (a ≤ b) && seqsNondecreasing (b :: rest)

/-- models.IngestPayload: the run plus all collected steps, submitted to
the ingest endpoint. -/
structure IngestPayload where
  run : RunModel
  steps : List StepModel
  deriving Repr

/-- IngestPayload construction as performed inside RunContext.__exit__:
the pydantic steps validator raises ValueError when the steps' sequence
values are out of order, surfaced by pydantic as ValidationError (a
ValueError subclass). -/
def IngestPayload.mkValidated (run : RunModel) (steps : List StepModel) :
    Except Exc IngestPayload :=
  if seqsNondecreasing (steps.map (fun s => s.sequence)) then
    Except.ok { run := run, steps := steps }
  else
    Except.error (Exc.validationError
      "Steps must be in sequential order by sequence number")

/-- The exception escaping the auto-send block of RunContext.__exit__, if
any: the IngestPayload construction can raise through its sequence
validator (in every fallback, async and enabled configuration), and
send_trace can raise through the raise fallback mode. -/
def autoSendRaise (run : RunModel) (steps : List StepModel)
    (cfg : XRayConfig) (transport : TransportResult) (writeOk : Bool) :
    Option Exc :=
  match IngestPayload.mkValidated run steps with
  | Except.error e => some e
  | Except.ok _ =>
      match send_trace cfg transport writeOk with
      | Except.error e => some e
      | Except.ok _ => none

/-- context.RunContext.__exit__: derives the terminal status from the
escaping exception, calls mark_complete, then (when auto_send) builds the
IngestPayload from the run and its collected steps and calls send_trace,
and returns False. Per Python with-statement semantics an incoming
exception keeps propagating when __exit__ returns False, while an
exception raised inside __exit__ — payload sequence validation or a
raise-mode delivery failure — propagates instead of the incoming one. The
result is the updated run model and the exception that reaches the caller
above the run scope. -/
def RunContext.exitRun (r : RunModel) (steps : List StepModel)
    (auto_send : Bool) (cfg : XRayConfig) (transport : TransportResult)
    (writeOk : Bool) (excIn : Option Exc) (now : Nat) :
    RunModel × Option Exc :=
  let status := match excIn with
    | none => RunStatus.SUCCESS
    | some _ => RunStatus.FAILURE
  let r2 := r.mark_complete status none now
  if auto_send then
    match autoSendRaise r2 steps cfg transport writeOk with
    | some e2 => (r2, some e2)
    | none => (r2, excIn)
  else (r2, excIn)

/-- context.StepContext.__exit__, effect on the step model: records the end
time and, for an escaping exception, writes the exception entry into the
step metadata. The append-to-run and contextvar restore are modelled by
RunContext.add_step and ActiveStep.exitRestore below. Returning False, it
never suppresses the escaping exception. -/
def StepContext.exitStepModel (s : StepModel) (excIn : Option Exc)
    (now : Nat) : StepModel :=
  let s2 := { s with end_time := some now }
  match excIn with
  | some e =>
      let entry := MetaValue.excInfo (Exc.typeName e) (Exc.message e)
      { s2 with metadata := Dict.setKey s2.metadata "exception" entry }
  | none => s2

/-- Per-run mutable state driving RunContext.step and RunContext.add_step:
the monotonic sequence counter and the list of attached steps. -/
structure RunCtxSteps where
  sequence_counter : Nat := 0
  steps : List StepModel := []
  deriving Repr

/-- context.RunContext.step: builds the step handle with the current counter
value as its sequence (the caller supplies only name and type, never the
sequence), then increments the counter. -/
def RunContext.stepCreate (st : RunCtxSteps) (step_name : String)
    (step_type : StepType) : StepModel × RunCtxSteps :=
  ({ step_name := step_name, step_type := step_type,
     sequence := st.sequence_counter },
   { st with sequence_counter := st.sequence_counter + 1 })

/-- context.RunContext.add_step (called from StepContext.__exit__): links
the finished step to the run and appends it to the steps list. -/
def RunContext.add_step (st : RunCtxSteps) (run_id : Nat) (s : StepModel) :
    RunCtxSteps :=
  { st with steps := st.steps ++ [{ s with run_id := some run_id }] }

/-- Straight-line step usage: each step is created by RunContext.step and
its scope entered and exited (attaching it) before the next step is
created. -/
def runSequentialSteps (run_id : Nat) (names : List (String × StepType)) :
    RunCtxSteps :=
  names.foldl (fun st p =>
    let c := RunContext.stepCreate st p.1 p.2
    RunContext.add_step c.2 run_id (StepContext.exitStepModel c.1 none 0))
    {}

/-- A RunContext as seen by the contextvar machinery of context.py: entering
saves the previously-current context inside the new one, becoming the
current context. -/
inductive ActiveRun where
  | mk (pipeline_name : String) (prev : Option ActiveRun)

/-- RunContext.__enter__: the new context saves the current one and is
installed as current. -/
def enterRun (cur : Option ActiveRun) (pipeline_name : String) : ActiveRun :=
  ActiveRun.mk pipeline_name cur

/-- The context saved at entry. -/
def ActiveRun.prev : ActiveRun → Option ActiveRun
  | ActiveRun.mk _ p => p

/-- Contextvar effect of RunContext.__exit__ on the current run: the
restore of the saved previous context is the last statement of __exit__,
so it runs only when the mark-complete/auto-send body did not raise; when
the auto-send block raises (payload sequence validation or a raise-mode
delivery failure), the restore never executes and the exited context
remains current. -/
def ActiveRun.exitRestore (c : ActiveRun) (r : RunModel)
    (steps : List StepModel) (auto_send : Bool) (cfg : XRayConfig)
    (transport : TransportResult) (writeOk : Bool) : Option ActiveRun :=
  if auto_send then
    match autoSendRaise r steps cfg transport writeOk with
    | some _ => some c
    | none => c.prev
  else c.prev

/-- A StepContext as seen by the step contextvar of context.py. -/
inductive ActiveStep where
  | mk (step_name : String) (prev : Option ActiveStep)

/-- StepContext.__enter__: the new step context saves the current one and is
installed as current. -/
def enterStep (cur : Option ActiveStep) (step_name : String) : ActiveStep :=
  ActiveStep.mk step_name cur

/-- Contextvar restore of StepContext.__exit__: unconditional, because the
statements preceding it (end-time assignment, metadata write, add_step's
pure list append) cannot raise. -/
def ActiveStep.exitRestore : ActiveStep → Option ActiveStep
  | ActiveStep.mk _ prev => prev

/-- One keyword option passed to config.configure: a recognized option name
carrying a well-typed value, or an unrecognized option name. -/
inductive ConfigOpt where
  | api_url (v : String)
  | enabled (v : Bool)
  | fallback_mode (v : FallbackMode)
  | fallback_log_path (v : String)
  | timeout_seconds (v : ℚ)
  | async_mode (v : Bool)
  | max_candidates_full_capture (v : Nat)
  | sample_size_large (v : Nat)
  | sample_size_medium (v : Nat)
  | verbose (v : Bool)
  | unknown (name : String)
  deriving Repr

/-- Whether the option name is a field of XRayConfig (the hasattr test in
config.configure). -/
def ConfigOpt.isKnown : ConfigOpt → Bool
  | ConfigOpt.unknown _ => false
  | _ => true

/-- The api_url field validator: strip trailing slashes. -/
def stripTrailingSlashes (s : String) : String :=
  s.dropRightWhile (fun c => c = '/')

/-- Plain attribute assignment, as done by setattr in config.configure on an
existing configuration (pydantic field validators do not run on
assignment with the model's default settings). An unrecognized option is
never passed here. -/
def ConfigOpt.applySet (c : XRayConfig) : ConfigOpt → XRayConfig
  | ConfigOpt.api_url v => { c with api_url := v }
  | ConfigOpt.enabled v => { c with enabled := v }
  | ConfigOpt.fallback_mode v => { c with fallback_mode := v }
  | ConfigOpt.fallback_log_path v => { c with fallback_log_path := v }
  | ConfigOpt.timeout_seconds v => { c with timeout_seconds := v }
  | ConfigOpt.async_mode v => { c with async_mode := v }
  | ConfigOpt.max_candidates_full_capture v =>
      { c with max_candidates_full_capture := v }
  | ConfigOpt.sample_size_large v => { c with sample_size_large := v }
  | ConfigOpt.sample_size_medium v => { c with sample_size_medium := v }
  | ConfigOpt.verbose v => { c with verbose := v }
  | ConfigOpt.unknown _ => c

/-- Constructor-time application of one recognized keyword, as in
XRayConfig(**kwargs): the api_url normalizer runs and unrecognized
keywords are ignored (the model declares no extra-keyword policy, so
pydantic's default of silently ignoring extras applies). The numeric
range validators are modelled by ConfigOpt.validValue and enforced in
XRayConfig.mkValidated. -/
def ConfigOpt.applyValidated (c : XRayConfig) : ConfigOpt → XRayConfig
  | ConfigOpt.api_url v => { c with api_url := stripTrailingSlashes v }
  | ConfigOpt.unknown _ => c
  | o => ConfigOpt.applySet c o

/-- The pydantic range constraints on the XRayConfig fields:
timeout_seconds carries gt=0 and le=60, and the capture/sample sizes
carry gt=0; the remaining options have no range constraint. -/
def ConfigOpt.validValue : ConfigOpt → Bool
  | ConfigOpt.timeout_seconds v => decide (0 < v) && decide (v ≤ 60)
  | ConfigOpt.max_candidates_full_capture v => decide (0 < v)
  | ConfigOpt.sample_size_large v => decide (0 < v)
  | ConfigOpt.sample_size_medium v => decide (0 < v)
  | _ => true

/-- Defaults overridden by the recognized keywords, without validation. -/
def XRayConfig.fromKwargs (kwargs : List ConfigOpt) : XRayConfig :=
  kwargs.foldl ConfigOpt.applyValidated {}

/-- XRayConfig(**kwargs): pydantic validates the recognized values and
raises ValidationError — a ValueError subclass — when any is out of
range, in which case no instance is produced; otherwise the defaults
overridden by the recognized keywords, unknown keywords ignored. -/
def XRayConfig.mkValidated (kwargs : List ConfigOpt) :
    Except String XRayConfig :=
  if kwargs.all ConfigOpt.validValue then
    Except.ok (XRayConfig.fromKwargs kwargs)
  else
    Except.error "validation error: value out of range"

/-- The update loop of config.configure on an existing configuration:
options are applied in order via setattr until an unrecognized name is
met, at which point a ValueError (modelled as the message) is raised with
the earlier options already applied. -/
def configUpdateLoop (c : XRayConfig) :
    List ConfigOpt → XRayConfig × Option String
  | [] => (c, none)
  | o :: rest =>
      match o with
      | ConfigOpt.unknown name =>
          (c, some ("Unknown configuration option: " ++ name))
      | known => configUpdateLoop (ConfigOpt.applySet c known) rest

/-- config.configure acting on the module-level singleton: when no
configuration exists the validating constructor runs — on a validation
failure the singleton stays absent; otherwise the existing configuration
is updated in place by plain setattr (no range validation on assignment).
The pair is the new singleton state and the raised error message, if
any. -/
def configure (st : Option XRayConfig) (kwargs : List ConfigOpt) :
    Option XRayConfig × Option String :=
  match st with
  | none =>
      match XRayConfig.mkValidated kwargs with
      | Except.ok c => (some c, none)
      | Except.error msg => (none, some msg)
  | some c =>
      let r := configUpdateLoop c kwargs
      (some r.1, r.2)

/-- config.reset_config: clears the singleton. -/
def reset_config (_ : Option XRayConfig) : Option XRayConfig := none

/-- Python slice candidates[-k:] for k ≥ 0: the last k items, except that
k = 0 denotes the whole list (a negative-zero start index). -/
def pySliceLast (l : List α) (k : Nat) : List α :=
  if k = 0 then l else l.drop (l.length - k)

/-- Python slice candidates[s:-s]: the items at indices s..len-s-1, which is
empty when s = 0 (the slice collapses to candidates[0:0]). -/
def pySliceMiddle (l : List α) (s : Nat) : List α :=
  if s = 0 then [] else (l.drop s).take (l.length - 2 * s)

/-- sampling.sample_candidates. random.sample is abstracted as rand; the
theorems assume only that rand m k returns exactly k items drawn from m
when k ≤ len(m), which random.sample guarantees. -/
def sample_candidates (rand : List α → Nat → List α) (candidates : List α)
    (max_full_capture : Nat) (sample_size : Nat) : List α :=
  let total := candidates.length
  if total ≤ max_full_capture then candidates
  else
    let first_n := min sample_size total
    let sampled₁ := candidates.take first_n
    let last_n := min sample_size total
    let sampled₂ :=
      if sample_size < total then sampled₁ ++ pySliceLast candidates last_n
      else sampled₁
    if sample_size * 2 < total then
      let middle := pySliceMiddle candidates sample_size
      if sample_size < middle.length then
        sampled₂ ++ rand middle (min sample_size middle.length)
      else sampled₂ ++ middle
    else sampled₂

/-- First-match lookup in the grouping dict built by
sampling.sample_candidates_stratified. -/
def lookupGroup [DecidableEq K] : List (K × List α) → K → Option (List α)
  | [], _ => none
  | (k0, g) :: rest, k => if k0 = k then some g else lookupGroup rest k

/-- Adding one candidate under its key: append to the existing group, or
append a fresh group at the end (dict insertion order). -/
def strataInsert [DecidableEq K] (groups : List (K × List α)) (k : K)
    (c : α) : List (K × List α) :=
  match groups with
  | [] => [(k, [c])]
  | (k0, g) :: rest =>
      if k0 = k then (k0, g ++ [c]) :: rest
      else (k0, g) :: strataInsert rest k c

/-- The grouping loop of sampling.sample_candidates_stratified: candidates
whose key lookup yields an absent value are skipped, the rest are grouped
by key. keyOf abstracts candidate.get(strata_key). -/
def strataFold [DecidableEq K] (keyOf : α → Option K)
    (groups : List (K × List α)) : List α → List (K × List α)
  | [] => groups
  | c :: rest =>
      match keyOf c with
      | some k => strataFold keyOf (strataInsert groups k c) rest
      | none => strataFold keyOf groups rest

/-- The strata dict after grouping all candidates. -/
def strataGroups [DecidableEq K] (keyOf : α → Option K)
    (candidates : List α) : List (K × List α) :=
  strataFold keyOf [] candidates

/-- sampling.sample_candidates_stratified: from each group keep everything
when the group has at most samples_per_stratum members, otherwise draw
samples_per_stratum items via random.sample (abstracted as rand). -/
def sample_candidates_stratified [DecidableEq K]
    (rand : List α → Nat → List α) (keyOf : α → Option K)
    (candidates : List α) (samples_per_stratum : Nat) : List α :=
  (strataGroups keyOf candidates).foldl (fun sampled g =>
    if g.2.length ≤ samples_per_stratum then sampled ++ g.2
    else sampled ++ rand g.2 samples_per_stratum) []

/-- The candidates of the input belonging to the group keyed k: the
specification-side description of one stratum. -/
def filterKey [DecidableEq K] (keyOf : α → Option K) (k : K)
    (l : List α) : List α :=
  l.filter (fun c => decide (keyOf c = some k))

/-! Helper lemmas shared by the claim theorems. -/

/-- Looking up the key just written by Dict.setKey yields the new value. -/
theorem Dict.getKey_setKey (d : Dict) (k : String) (v : MetaValue) :
    Dict.getKey (Dict.setKey d k v) k = some v := by
  induction d with
  | nil => simp [Dict.setKey, Dict.getKey]
  | cons hd tl ih =>
      by_cases h : hd.1 = k
      · simp [Dict.setKey, Dict.getKey, h]
      · simp [Dict.setKey, Dict.getKey, h, ih]

/-- The status written by RunContext.__exit__ depends only on whether an
exception is escaping, never on the auto-send outcome (mark_complete runs
before the payload construction and the delivery call). -/
theorem exitRun_status (r : RunModel) (steps : List StepModel)
    (auto_send : Bool) (cfg : XRayConfig) (transport : TransportResult)
    (writeOk : Bool) (excIn : Option Exc) (now : Nat) :
    (RunContext.exitRun r steps auto_send cfg transport writeOk excIn now).1.status
      = match excIn with
        | none => RunStatus.SUCCESS
        | some _ => RunStatus.FAILURE := by
  unfold RunContext.exitRun
  cases auto_send <;> cases excIn <;>
    simp [RunModel.mark_complete] <;> split <;> simp

/-- The auto-send block raises nothing when the attached steps' sequence
list is nondecreasing and the delivery cannot raise (non-raise fallback,
async mode, tracing off, or a successful delivery). -/
theorem autoSendRaise_none (run : RunModel) (steps : List StepModel)
    (cfg : XRayConfig) (transport : TransportResult) (writeOk : Bool)
    (hsorted : seqsNondecreasing (steps.map (fun s => s.sequence)) = true)
    (h : cfg.fallback_mode ≠ FallbackMode.RAISE ∨ cfg.async_mode = true
         ∨ cfg.enabled = false ∨ transport.isSuccess = true) :
    autoSendRaise run steps cfg transport writeOk = none := by
  unfold autoSendRaise IngestPayload.mkValidated send_trace send
    handle_failure
  rw [if_pos hsorted]
  cases ham : cfg.async_mode with
  | true => simp [ham]
  | false =>
      cases hen : cfg.enabled with
      | false => simp [ham, hen]
      | true =>
          cases hfm : cfg.fallback_mode with
          | SILENT =>
              cases transport <;> simp [ham, hen, hfm] <;>
                split_ifs <;> simp
          | LOG =>
              cases transport <;> simp [ham, hen, hfm] <;>
                split_ifs <;> simp
          | RAISE =>
              rcases h with h | h | h | h
              · exact absurd hfm h
              · rw [h] at ham; cases ham
              · rw [h] at hen; cases hen
              · cases transport with
                | status code =>
                    have hcode : code = 200 ∨ code = 201 := by
                      simp [TransportResult.isSuccess] at h
                      omega
                    simp [ham, hen, hfm, if_pos hcode]
                | timeoutFail => simp [TransportResult.isSuccess] at h
                | connectFail => simp [TransportResult.isSuccess] at h
                | otherFail m => simp [TransportResult.isSuccess] at h

/-- Whenever the auto-send block cannot raise (in-order steps and
non-raising delivery), the exception escaping the run scope reaches the
caller unchanged. -/
theorem exitRun_keeps_exc (r : RunModel) (steps : List StepModel)
    (auto_send : Bool) (cfg : XRayConfig) (transport : TransportResult)
    (writeOk : Bool) (e : Exc) (now : Nat)
    (hsorted : seqsNondecreasing (steps.map (fun s => s.sequence)) = true)
    (h : cfg.fallback_mode ≠ FallbackMode.RAISE ∨ cfg.async_mode = true
         ∨ cfg.enabled = false ∨ transport.isSuccess = true) :
    (RunContext.exitRun r steps auto_send cfg transport writeOk (some e) now).2
      = some e := by
  unfold RunContext.exitRun
  cases auto_send with
  | false => simp
  | true =>
      have hz := autoSendRaise_none
        (r.mark_complete RunStatus.FAILURE none now) steps cfg transport
        writeOk hsorted h
      simp [hz]

/-- Run-scope exit never silently swallows an escaping exception: the caller
always observes some exception. -/
theorem exitRun_exc_isSome (r : RunModel) (steps : List StepModel)
    (auto_send : Bool) (cfg : XRayConfig) (transport : TransportResult)
    (writeOk : Bool) (e : Exc) (now : Nat) :
    (RunContext.exitRun r steps auto_send cfg transport writeOk (some e) now).2.isSome
      = true := by
  unfold RunContext.exitRun
  cases auto_send <;> simp <;> split <;> simp

/-- Exact output size of the smart sampler above the full-capture threshold,
as a function of the input size, for any positive sample size and any
size-respecting rand. -/
theorem sample_candidates_length (rand : List α → Nat → List α)
    (l : List α) (T S : Nat) (hS : 1 ≤ S)
    (hrand : ∀ (m : List α) (k : Nat), k ≤ m.length → (rand m k).length = k) :
    (sample_candidates rand l T S).length =
      if l.length ≤ T then l.length
      else if l.length ≤ S then l.length
      else if l.length ≤ 2 * S then 2 * S
      else if l.length ≤ 3 * S then l.length
      else 3 * S := by
  by_cases h1 : l.length ≤ T
  · simp [sample_candidates, h1]
  · by_cases h2 : l.length ≤ S
    · have hlt : ¬ S < l.length := by omega
      have hlt2 : ¬ S * 2 < l.length := by omega
      simp only [sample_candidates, if_neg h1, if_neg hlt, if_neg hlt2,
        if_pos h2]
      simp [List.length_take]
      omega
    · have hgt : S < l.length := by omega
      have hS0 : ¬ S = 0 := by omega
      have hk0 : ¬ (min S l.length = 0) := by omega
      have hmidlen : ((l.drop S).take (l.length - 2 * S)).length
          = l.length - 2 * S := by
        simp [List.length_take, List.length_drop]
        omega
      by_cases h3 : l.length ≤ 2 * S
      · have hmid : ¬ S * 2 < l.length := by omega
        simp only [sample_candidates, if_neg h1, if_pos hgt, if_neg hmid,
          if_neg h2, if_pos h3, pySliceLast, if_neg hk0]
        simp [List.length_take, List.length_drop]
        omega
      · have hmid : S * 2 < l.length := by omega
        by_cases h4 : l.length ≤ 3 * S
        · have hsm : ¬ S < ((l.drop S).take (l.length - 2 * S)).length := by
            rw [hmidlen]; omega
          simp only [sample_candidates, if_neg h1, if_pos hgt, if_pos hmid,
            if_neg h2, if_neg h3, if_pos h4, pySliceLast, pySliceMiddle,
            if_neg hS0, if_neg hk0, if_neg hsm]
          simp [List.length_take, List.length_drop]
          omega
        · have hsm : S < ((l.drop S).take (l.length - 2 * S)).length := by
            rw [hmidlen]; omega
          have hrS : ∀ m : List α, m.length = l.length - 2 * S →
              (rand m (min S m.length)).length = S := by
            intro m hm
            rw [hm, show min S (l.length - 2 * S) = S by omega]
            exact hrand m S (by rw [hm]; omega)
          simp only [sample_candidates, if_neg h1, if_pos hgt, if_pos hmid,
            if_neg h2, if_neg h3, if_neg h4, pySliceLast, pySliceMiddle,
            if_neg hS0, if_neg hk0, if_pos hsm, List.length_append]
          rw [hrS ((l.drop S).take (l.length - 2 * S)) hmidlen]
          simp [List.length_take, List.length_drop]
          omega

/-- With only recognized options, the update loop applies them all in order
and raises nothing. -/
theorem configUpdateLoop_all_known (kw : List ConfigOpt) :
    ∀ c : XRayConfig, (∀ o ∈ kw, o.isKnown = true) →
      configUpdateLoop c kw = (kw.foldl ConfigOpt.applySet c, none) := by
  induction kw with
  | nil => intro c _; rfl
  | cons o rest ih =>
      intro c h
      cases o
      case unknown nm =>
        exact absurd (h _ (List.mem_cons_self _ _)) (by simp [ConfigOpt.isKnown])
      all_goals
        simp only [configUpdateLoop, List.foldl_cons]
        exact ih _ (fun o ho => h o (List.mem_cons_of_mem _ ho))

/-- The update loop applies the recognized prefix, then raises at the first
unrecognized option name. -/
theorem configUpdateLoop_unknown (pre : List ConfigOpt) :
    ∀ (c : XRayConfig) (nm : String) (rest : List ConfigOpt),
      (∀ o ∈ pre, o.isKnown = true) →
      configUpdateLoop c (pre ++ ConfigOpt.unknown nm :: rest)
        = (pre.foldl ConfigOpt.applySet c,
           some ("Unknown configuration option: " ++ nm)) := by
  induction pre with
  | nil => intro c nm rest _; rfl
  | cons o pre ih =>
      intro c nm rest h
      cases o
      case unknown nm0 =>
        exact absurd (h _ (List.mem_cons_self _ _)) (by simp [ConfigOpt.isKnown])
      all_goals
        simp only [List.cons_append, configUpdateLoop, List.foldl_cons]
        exact ih _ _ _ (fun o ho => h o (List.mem_cons_of_mem _ ho))

/-! Claim theorems. -/

/-- C3 counterexample: with threshold T = 1, sample size S = 3 and four
candidates, the smart sampler emits the first three and the last three
items — six items from a four-item input, exceeding the original count
(the first and last slices overlap whenever T < N < 2S). -/
theorem sample_candidates_exceeds_input :
    (sample_candidates (fun (m : List Nat) k => m.take k) [0, 1, 2, 3] 1 3).length
      = 6
    ∧ ¬ ((sample_candidates (fun (m : List Nat) k => m.take k)
          [0, 1, 2, 3] 1 3).length ≤ ([0, 1, 2, 3] : List Nat).length) :=
  ⟨rfl, by decide⟩

/-- C3 amended: when N ≤ T the sampler returns its input unchanged; when
N > T (and S ≥ 1, with rand returning its requested count) the output size
lies between min(S, N) and 3S and never exceeds max(N, 2S) — it exceeds N
itself precisely when S < N < 2S (in which case it equals 2S): for
T < N ≤ S the whole input is returned and for N ≥ 2S the size is capped
by N. The default configuration (T = 100 = 2S) cannot reach the exceeding
region. -/
theorem sample_candidates_bounds_amended (rand : List α → Nat → List α)
    (l : List α) (T S : Nat) (hS : 1 ≤ S)
    (hrand : ∀ (m : List α) (k : Nat), k ≤ m.length → (rand m k).length = k) :
    (l.length ≤ T → sample_candidates rand l T S = l)
    ∧ (T < l.length →
        min S l.length ≤ (sample_candidates rand l T S).length
        ∧ (sample_candidates rand l T S).length ≤ 3 * S
        ∧ (sample_candidates rand l T S).length ≤ max l.length (2 * S)
        ∧ (l.length < (sample_candidates rand l T S).length
            ↔ S < l.length ∧ l.length < 2 * S)) := by
  have hlen := sample_candidates_length rand l T S hS hrand
  constructor
  · intro h
    simp [sample_candidates, h]
  · intro h
    rw [hlen]
    split_ifs <;> omega

/-- Witness for C3 amended at N = 3, T = 1, S = 1 (output size 3 = N,
which does not exceed N since N ≥ 2S here). -/
theorem sample_candidates_bounds_amended_witness :
    min 1 ([0, 1, 2] : List Nat).length
      ≤ (sample_candidates (fun (m : List Nat) k => m.take k) [0, 1, 2] 1 1).length
    ∧ (sample_candidates (fun (m : List Nat) k => m.take k) [0, 1, 2] 1 1).length
      ≤ 3 * 1
    ∧ (sample_candidates (fun (m : List Nat) k => m.take k) [0, 1, 2] 1 1).length
      ≤ max ([0, 1, 2] : List Nat).length (2 * 1)
    ∧ (([0, 1, 2] : List Nat).length
        < (sample_candidates (fun (m : List Nat) k => m.take k) [0, 1, 2] 1 1).length
        ↔ 1 < ([0, 1, 2] : List Nat).length
          ∧ ([0, 1, 2] : List Nat).length < 2 * 1) :=
  (sample_candidates_bounds_amended (fun m k => m.take k) [0, 1, 2] 1 1
      (by decide)
      (fun m k h => by simp [List.length_take]; omega)).2 (by decide)

/-- C4 counterexample: when the auto-send block of RunContext.__exit__
raises (here: raise fallback mode, synchronous failing delivery), the
contextvar restore never executes, so exiting nested run B leaves B — not
A — as the current run. -/
theorem run_exit_raise_skips_restore :
    ActiveRun.exitRestore (enterRun (some (enterRun none "A")) "B")
        (RunModel.init "B" "1.0.0" 0 0 []) [] true
        { async_mode := false, fallback_mode := FallbackMode.RAISE }
        TransportResult.connectFail true
      = some (enterRun (some (enterRun none "A")) "B")
    ∧ some (enterRun (some (enterRun none "A")) "B")
        ≠ some (enterRun none "A") := by
  refine ⟨rfl, ?_⟩
  intro h
  simp [enterRun] at h

/-- C4 amended: whenever run-scope exit completes without the auto-send
block raising (auto-send off, or in-order steps with a non-raising
delivery), entering run A then run B and exiting B restores A as current,
exiting A restores the absent current run, and in general every such exit
restores exactly the context saved at its entry; when the auto-send block
raises, the exited run remains current. Step-scope exit performs no
raising operation before its restore, so the step property is
unconditional. -/
theorem context_nesting_restore_amended (nA nB sA sB : String)
    (r : RunModel) (steps : List StepModel) (auto_send : Bool)
    (cfg : XRayConfig) (transport : TransportResult) (writeOk : Bool)
    (hnoraise : auto_send = false
        ∨ autoSendRaise r steps cfg transport writeOk = none) :
    (ActiveRun.exitRestore (enterRun (some (enterRun none nA)) nB)
          r steps auto_send cfg transport writeOk
        = some (enterRun none nA)
      ∧ ActiveRun.exitRestore (enterRun none nA)
          r steps auto_send cfg transport writeOk = none
      ∧ ∀ (cur : Option ActiveRun) (nm : String),
          ActiveRun.exitRestore (enterRun cur nm)
            r steps auto_send cfg transport writeOk = cur)
    ∧ (ActiveStep.exitRestore (enterStep (some (enterStep none sA)) sB)
        = some (enterStep none sA)
      ∧ ActiveStep.exitRestore (enterStep none sA) = none
      ∧ ∀ (cur : Option ActiveStep) (nm : String),
          ActiveStep.exitRestore (enterStep cur nm) = cur) := by
  have hrest : ∀ c : ActiveRun,
      ActiveRun.exitRestore c r steps auto_send cfg transport writeOk
        = c.prev := by
    intro c
    unfold ActiveRun.exitRestore
    rcases hnoraise with h | h
    · simp [h]
    · cases auto_send <;> simp [h]
  exact ⟨⟨by rw [hrest]; rfl, by rw [hrest]; rfl,
      fun cur nm => by rw [hrest]; rfl⟩,
    ⟨rfl, rfl, fun _ _ => rfl⟩⟩

/-- Witness for C4 amended: nested restore with auto-send off. -/
theorem context_nesting_restore_amended_witness :
    ActiveRun.exitRestore (enterRun (some (enterRun none "A")) "B")
        (RunModel.init "B" "1.0.0" 0 0 []) [] false {}
        (TransportResult.status 200) true
      = some (enterRun none "A") :=
  ((context_nesting_restore_amended "A" "B" "s" "t"
      (RunModel.init "B" "1.0.0" 0 0 []) [] false {}
      (TransportResult.status 200) true (Or.inl rfl)).1).1

/-- C5: with candidates_in = I > 0 and candidates_out = O both set,
reduction_rate is exactly (I − O) / I; with candidates_in = 0 it is the
absent value, which is distinguishable from a computed zero, with no
division by zero. -/
theorem reduction_rate_exact (s : StepModel) (i o : Int)
    (hin : s.candidates_in = some i) (hout : s.candidates_out = some o) :
    (0 < i → s.reduction_rate = some (((i - o : Int) : ℚ) / ((i : Int) : ℚ)))
    ∧ (i = 0 → s.reduction_rate = none ∧ s.reduction_rate ≠ some 0) := by
  simp only [StepModel.reduction_rate, hin, hout]
  constructor
  · intro hi
    rw [if_neg (show ¬ i = 0 by omega)]
  · intro hi
    subst hi
    simp

/-- Witness for C5 at I = 4, O = 1. -/
theorem reduction_rate_exact_witness :
    ({ step_name := "price_filter", step_type := StepType.FILTER,
       candidates_in := some 4, candidates_out := some 1 } :
        StepModel).reduction_rate
      = some (((4 - 1 : Int) : ℚ) / ((4 : Int) : ℚ)) :=
  (reduction_rate_exact _ 4 1 rfl rfl).1 (by norm_num)

/-- C9: with tracing globally disabled, send reports success immediately and
performs zero transport attempts, whatever the transport would have done. -/
theorem disabled_send_no_transport (cfg : XRayConfig)
    (transport : TransportResult) (writeOk : Bool)
    (hdis : cfg.enabled = false) :
    send cfg transport writeOk = (Except.ok true, 0) := by
  unfold send
  rw [hdis]
  simp

/-- Witness for C9 with a connection failure that is never attempted. -/
theorem disabled_send_no_transport_witness :
    send { enabled := false } TransportResult.connectFail true
      = (Except.ok true, 0) :=
  disabled_send_no_transport _ _ _ rfl

/-- C7 counterexample: mark_complete assigns its status argument
unconditionally, so a second explicit completion call moves a run out of
the terminal state SUCCESS into PARTIAL, contradicting the claim that no
operation leaves a terminal state. -/
theorem mark_complete_overwrites_terminal :
    ((RunModel.init "p" "1.0.0" 0 0 []).mark_complete
        RunStatus.SUCCESS none 1).status = RunStatus.SUCCESS
    ∧ (((RunModel.init "p" "1.0.0" 0 0 []).mark_complete
          RunStatus.SUCCESS none 1).mark_complete
          RunStatus.PARTIAL none 2).status = RunStatus.PARTIAL
    ∧ RunStatus.PARTIAL ≠ RunStatus.SUCCESS :=
  ⟨rfl, rfl, by decide⟩

/-- C7 amended: a run starts RUNNING; run-scope exit sets the status to
SUCCESS exactly when no exception escapes and to FAILURE otherwise — never
to PARTIAL or RUNNING, so PARTIAL is reachable only through an explicit
completion call; mark_complete, however, assigns its argument
unconditionally, so a repeated explicit call can overwrite a terminal
status. -/
theorem run_status_transitions_amended (r : RunModel)
    (steps : List StepModel) (auto_send : Bool) (cfg : XRayConfig)
    (transport : TransportResult) (writeOk : Bool) (excIn : Option Exc)
    (now : Nat) :
    (∀ (nm ver : String) (i t : Nat) (m : Dict),
        (RunModel.init nm ver i t m).status = RunStatus.RUNNING)
    ∧ (excIn = none →
        (RunContext.exitRun r steps auto_send cfg transport writeOk excIn now).1.status
          = RunStatus.SUCCESS)
    ∧ (∀ e : Exc, excIn = some e →
        (RunContext.exitRun r steps auto_send cfg transport writeOk excIn now).1.status
          = RunStatus.FAILURE)
    ∧ (RunContext.exitRun r steps auto_send cfg transport writeOk excIn now).1.status
        ≠ RunStatus.PARTIAL
    ∧ (∀ (s : RunStatus) (fo : Option Dict) (t : Nat),
        ((r.mark_complete s fo t).status = s)) := by
  have hst := exitRun_status r steps auto_send cfg transport writeOk excIn now
  refine ⟨fun _ _ _ _ _ => rfl, ?_, ?_, ?_, fun _ _ _ => rfl⟩
  · intro h
    subst h
    exact hst
  · intro e h
    subst h
    exact hst
  · cases excIn <;> rw [hst] <;> simp

/-- Witness for C7 amended, on a successful run exit with default config. -/
theorem run_status_transitions_amended_witness :
    (RunContext.exitRun (RunModel.init "p" "1.0.0" 0 0 []) [] true {}
        (TransportResult.status 200) true none 3).1.status
      = RunStatus.SUCCESS :=
  (run_status_transitions_amended (RunModel.init "p" "1.0.0" 0 0 []) [] true
      {} (TransportResult.status 200) true none 3).2.1 rfl

/-- C1 counterexample: with fallback mode RAISE, synchronous sending and a
failing delivery, the transport exception raised inside
RunContext.__exit__ propagates to the caller in place of the escaping
application exception, so run-scope exit does replace the application
exception in this configuration. -/
theorem run_exit_raise_mode_replaces_exception :
    (RunContext.exitRun (RunModel.init "p" "1.0.0" 0 0 []) [] true
        { async_mode := false, fallback_mode := FallbackMode.RAISE }
        TransportResult.connectFail true
        (some (Exc.appError "ValueError" "boom")) 5).2
      = some Exc.connectExc
    ∧ some Exc.connectExc ≠ some (Exc.appError "ValueError" "boom") :=
  ⟨rfl, by decide⟩

/-- C1 amended: an escaping application exception is never suppressed by
run-scope exit (the caller always observes an exception); it reaches the
caller unchanged whenever auto-send is off, and whenever the attached
steps' sequence list is nondecreasing and the delivery cannot raise (any
fallback mode other than RAISE, or async mode, or tracing disabled, or a
successful delivery). With auto-send on and an out-of-order steps list,
the payload sequence validator's ValidationError replaces the application
exception in every fallback, async and enabled configuration; with
in-order steps, RAISE-mode synchronous failed delivery replaces it with
the delivery exception. -/
theorem run_exit_propagation_amended (r : RunModel)
    (steps : List StepModel) (auto_send : Bool) (cfg : XRayConfig)
    (transport : TransportResult) (writeOk : Bool) (e : Exc) (now : Nat) :
    (RunContext.exitRun r steps auto_send cfg transport writeOk (some e) now).2.isSome
      = true
    ∧ (auto_send = false →
        (RunContext.exitRun r steps auto_send cfg transport writeOk (some e) now).2
          = some e)
    ∧ (seqsNondecreasing (steps.map (fun s => s.sequence)) = true →
        cfg.fallback_mode ≠ FallbackMode.RAISE ∨ cfg.async_mode = true
          ∨ cfg.enabled = false ∨ transport.isSuccess = true →
        (RunContext.exitRun r steps auto_send cfg transport writeOk (some e) now).2
          = some e)
    ∧ (auto_send = true →
        seqsNondecreasing (steps.map (fun s => s.sequence)) = false →
        (RunContext.exitRun r steps auto_send cfg transport writeOk (some e) now).2
          = some (Exc.validationError
              "Steps must be in sequential order by sequence number")) := by
  refine ⟨exitRun_exc_isSome r steps auto_send cfg transport writeOk e now,
    ?_,
    fun hs hd =>
      exitRun_keeps_exc r steps auto_send cfg transport writeOk e now hs hd,
    ?_⟩
  · intro h
    subst h
    rfl
  · intro ha hbad
    subst ha
    unfold RunContext.exitRun autoSendRaise IngestPayload.mkValidated
    simp [hbad]

/-- C2 counterexample: with nested step scopes (both steps created by
RunContext.step and attached by their scope exits), the inner step exits
first, so the attached sequence values appear as [1, 0] — not 0..n-1 in
attachment order. -/
theorem nested_steps_reorder_attachment :
    (let st0 : RunCtxSteps := {}
     let c1 := RunContext.stepCreate st0 "outer" StepType.CUSTOM
     let c2 := RunContext.stepCreate c1.2 "inner" StepType.LLM
     let st3 := RunContext.add_step c2.2 7 (StepContext.exitStepModel c2.1 none 0)
     let st4 := RunContext.add_step st3 7 (StepContext.exitStepModel c1.1 none 1)
     st4.steps.map (fun s => s.sequence))
      = [1, 0]
    ∧ [1, 0] ≠ List.range 2 :=
  ⟨rfl, by decide⟩

/-- After any sequence of create-then-attach iterations starting from an
arbitrary run state, the attached sequence values extend the existing ones
by consecutive counter values. -/
theorem runSequentialSteps_fold (names : List (String × StepType)) :
    ∀ (st : RunCtxSteps) (rid : Nat),
      ((names.foldl (fun st p =>
          let c := RunContext.stepCreate st p.1 p.2
          RunContext.add_step c.2 rid
            (StepContext.exitStepModel c.1 none 0)) st).steps.map
            (fun s => s.sequence))
        = st.steps.map (fun s => s.sequence)
          ++ List.range' st.sequence_counter names.length := by
  induction names with
  | nil => intro st rid; simp [List.range']
  | cons p rest ih =>
      intro st rid
      rw [List.foldl_cons, ih]
      simp [RunContext.stepCreate, RunContext.add_step,
        StepContext.exitStepModel, List.range'_succ]

/-- C2 amended: sequence numbers are assigned from the run's monotonic
counter at step-creation time (the caller supplies only name and type),
and under straight-line usage — each step's scope exited before the next
step is created — the attached steps carry sequences exactly 0..n-1 in
attachment order; nested or abandoned step handles can reorder or gap the
attached list. -/
theorem sequential_steps_sequence_range (rid : Nat)
    (names : List (String × StepType)) (st : RunCtxSteps) (nm : String)
    (ty : StepType) :
    ((runSequentialSteps rid names).steps.map (fun s => s.sequence)
        = List.range names.length)
    ∧ (RunContext.stepCreate st nm ty).1.sequence = st.sequence_counter
    ∧ (RunContext.stepCreate st nm ty).2.sequence_counter
        = st.sequence_counter + 1 := by
  refine ⟨?_, rfl, rfl⟩
  unfold runSequentialSteps
  rw [runSequentialSteps_fold]
  simp [List.range_eq_range']

/-- C6 counterexample: an exception raised inside a step scope is recorded
in the step metadata, yet it does not always appear verbatim above the
run scope — with fallback mode RAISE and a synchronous failing delivery
the transport exception appears instead, and with out-of-order attached
step sequences the payload validator's ValidationError appears instead
even under the all-default configuration (silent fallback, async mode). -/
theorem step_exception_raise_mode_masks :
    Dict.getKey
        ((StepContext.exitStepModel
            { step_name := "s", step_type := StepType.LLM }
            (some (Exc.appError "KeyError" "missing")) 3).metadata)
        "exception"
      = some (MetaValue.excInfo "KeyError" "missing")
    ∧ (RunContext.exitRun (RunModel.init "p" "1.0.0" 0 0 []) [] true
        { async_mode := false, fallback_mode := FallbackMode.RAISE }
        TransportResult.timeoutFail true
        (some (Exc.appError "KeyError" "missing")) 9).2
      = some Exc.timeoutExc
    ∧ some Exc.timeoutExc ≠ some (Exc.appError "KeyError" "missing")
    ∧ (RunContext.exitRun (RunModel.init "p" "1.0.0" 0 0 [])
        [{ step_name := "inner", step_type := StepType.LLM, sequence := 1 },
         { step_name := "outer", step_type := StepType.CUSTOM, sequence := 0 }]
        true {} (TransportResult.status 200) true
        (some (Exc.appError "KeyError" "missing")) 9).2
      = some (Exc.validationError
          "Steps must be in sequential order by sequence number") :=
  ⟨rfl, rfl, by decide, rfl⟩

/-- C6 amended: for every exception escaping a step scope, the step metadata
gains an exception entry carrying the exception's type name and message,
and the owning run's terminal status is FAILURE; the exception reaches the
call site above the run scope verbatim whenever the auto-send block cannot
itself raise — the run's attached steps in nondecreasing sequence order
(so the payload validator passes) and a delivery that cannot raise (any
fallback mode other than RAISE, or async mode, or tracing disabled, or a
successful delivery). Otherwise the payload ValidationError or the
delivery exception appears at the call site instead. -/
theorem step_exception_propagation_amended (s : StepModel) (e : Exc)
    (tEnd : Nat) (r : RunModel) (steps : List StepModel)
    (auto_send : Bool) (cfg : XRayConfig) (transport : TransportResult)
    (writeOk : Bool) (now : Nat)
    (hsorted : seqsNondecreasing (steps.map (fun st => st.sequence)) = true)
    (hnr : cfg.fallback_mode ≠ FallbackMode.RAISE ∨ cfg.async_mode = true
           ∨ cfg.enabled = false ∨ transport.isSuccess = true) :
    (RunContext.exitRun r steps auto_send cfg transport writeOk (some e) now).2
        = some e
    ∧ Dict.getKey (StepContext.exitStepModel s (some e) tEnd).metadata
        "exception"
        = some (MetaValue.excInfo (Exc.typeName e) (Exc.message e))
    ∧ (RunContext.exitRun r steps auto_send cfg transport writeOk (some e) now).1.status
        = RunStatus.FAILURE := by
  refine ⟨exitRun_keeps_exc r steps auto_send cfg transport writeOk e now
    hsorted hnr, ?_, ?_⟩
  · unfold StepContext.exitStepModel
    exact Dict.getKey_setKey _ _ _
  · exact exitRun_status r steps auto_send cfg transport writeOk (some e) now

/-- Witness for C6 amended: a ZeroDivisionError escaping a step under the
default silent fallback, with an in-order attached step. -/
theorem step_exception_propagation_amended_witness :
    (RunContext.exitRun (RunModel.init "p" "1.0.0" 0 0 [])
        [{ step_name := "s", step_type := StepType.LLM }] true
        { async_mode := false } TransportResult.connectFail true
        (some (Exc.appError "ZeroDivisionError" "division by zero")) 4).2
      = some (Exc.appError "ZeroDivisionError" "division by zero") :=
  (step_exception_propagation_amended
      { step_name := "s", step_type := StepType.LLM }
      (Exc.appError "ZeroDivisionError" "division by zero") 2
      (RunModel.init "p" "1.0.0" 0 0 [])
      [{ step_name := "s", step_type := StepType.LLM }] true
      { async_mode := false } TransportResult.connectFail true 4 rfl
      (Or.inl (by decide))).1

/-- Witness for C1 amended: silent fallback with a failed delivery still
propagates the original exception. -/
theorem run_exit_propagation_amended_witness :
    (RunContext.exitRun (RunModel.init "p" "1.0.0" 0 0 []) []
        true { async_mode := false } TransportResult.connectFail true
        (some (Exc.appError "ValueError" "boom")) 5).2
      = some (Exc.appError "ValueError" "boom") :=
  (run_exit_propagation_amended (RunModel.init "p" "1.0.0" 0 0 []) []
      true { async_mode := false } TransportResult.connectFail true
      (Exc.appError "ValueError" "boom") 5).2.2.1 rfl (Or.inl (by decide))

/-- C10 counterexample: a very first configure call carrying an
unrecognized option name together with an out-of-range recognized value
(timeout_seconds = 100 violates le=60) raises ValidationError — a
ValueError subclass — while no configuration object exists, and no
configuration is created, refuting both the claimed iff and the claimed
first-call behavior. -/
theorem configure_first_call_validation_raises :
    (configure none
        [ConfigOpt.timeout_seconds 100, ConfigOpt.unknown "bogus"]).2
      = some "validation error: value out of range"
    ∧ (configure none
        [ConfigOpt.timeout_seconds 100, ConfigOpt.unknown "bogus"]).1
      = none := by
  have hv : ([ConfigOpt.timeout_seconds 100,
      ConfigOpt.unknown "bogus"].all ConfigOpt.validValue) = false := by
    simp [ConfigOpt.validValue]
    norm_num
  exact ⟨by simp [configure, XRayConfig.mkValidated, hv],
    by simp [configure, XRayConfig.mkValidated, hv]⟩

/-- C10 amended: an unrecognized option name by itself raises ValueError
exactly when a configuration already exists — a first call whose
recognized values all pass the pydantic range validators ignores unknown
keywords and creates the configuration, while a later call applies the
recognized options listed before the unknown one and then raises; but a
first call with any out-of-range recognized value raises ValidationError
(a ValueError) with no configuration created, and later calls assign by
plain setattr, which never range-checks and raises only for unrecognized
names. -/
theorem configure_unknown_option_amended (pre rest : List ConfigOpt)
    (nm : String) (hpre : ∀ o ∈ pre, o.isKnown = true) :
    (∀ (c : XRayConfig) (kw : List ConfigOpt),
        (∀ o ∈ kw, o.isKnown = true) → (configure (some c) kw).2 = none)
    ∧ (∀ kw : List ConfigOpt, kw.all ConfigOpt.validValue = true →
        configure none kw = (some (XRayConfig.fromKwargs kw), none))
    ∧ (∀ kw : List ConfigOpt, kw.all ConfigOpt.validValue = false →
        configure none kw
          = (none, some "validation error: value out of range"))
    ∧ ((pre ++ ConfigOpt.unknown nm :: rest).all ConfigOpt.validValue = true →
        configure none (pre ++ ConfigOpt.unknown nm :: rest)
          = (some (XRayConfig.fromKwargs (pre ++ ConfigOpt.unknown nm :: rest)),
             none))
    ∧ ∀ c : XRayConfig,
        configure (some c) (pre ++ ConfigOpt.unknown nm :: rest)
          = (some (pre.foldl ConfigOpt.applySet c),
             some ("Unknown configuration option: " ++ nm)) := by
  have hfirst : ∀ kw : List ConfigOpt, kw.all ConfigOpt.validValue = true →
      configure none kw = (some (XRayConfig.fromKwargs kw), none) := by
    intro kw h
    simp [configure, XRayConfig.mkValidated, h]
  refine ⟨?_, hfirst, ?_, hfirst _, ?_⟩
  · intro c kw h
    simp [configure, configUpdateLoop_all_known kw c h]
  · intro kw h
    simp [configure, XRayConfig.mkValidated, h]
  · intro c
    simp [configure, configUpdateLoop_unknown pre c nm rest hpre]

/-- Witness for C10 amended: an unknown option after a recognized one,
against an existing configuration. -/
theorem configure_unknown_option_amended_witness :
    configure (some {}) [ConfigOpt.enabled false, ConfigOpt.unknown "bogus"]
      = (some ([ConfigOpt.enabled false].foldl ConfigOpt.applySet {}),
         some ("Unknown configuration option: " ++ "bogus")) :=
  (configure_unknown_option_amended [ConfigOpt.enabled false] [] "bogus"
      (by intro o ho; simp at ho; subst ho; rfl)).2.2.2.2 {}

/-- Lookup after one strataInsert: the inserted key gains the candidate at
the end of its group, every other key is untouched. -/
theorem lookupGroup_strataInsert [DecidableEq K] (k : K) (c : α) (k0 : K) :
    ∀ gs : List (K × List α),
      lookupGroup (strataInsert gs k c) k0 =
        if k = k0 then some (((lookupGroup gs k).getD []) ++ [c])
        else lookupGroup gs k0 := by
  intro gs
  induction gs with
  | nil =>
      by_cases h : k = k0
      · subst h
        simp [strataInsert, lookupGroup]
      · simp [strataInsert, lookupGroup, h]
  | cons hd tl ih =>
      obtain ⟨kh, g⟩ := hd
      by_cases h1 : kh = k
      · subst h1
        by_cases h2 : kh = k0
        · subst h2
          simp [strataInsert, lookupGroup]
        · simp [strataInsert, lookupGroup, h2]
      · by_cases h2 : kh = k0
        · subst h2
          have h1' : ¬ k = kh := fun hh => h1 hh.symm
          simp [strataInsert, lookupGroup, h1, h1']
        · simp [strataInsert, lookupGroup, h1, h2, ih]

/-- Lookup after grouping a candidate list starting from any dict state: the
group of key k gains exactly the candidates keyed k, in order. -/
theorem lookupGroup_strataFold [DecidableEq K] [DecidableEq α] (keyOf : α → Option K)
    (l : List α) :
    ∀ (gs : List (K × List α)) (k : K),
      lookupGroup (strataFold keyOf gs l) k =
        match lookupGroup gs k with
        | some g => some (g ++ filterKey keyOf k l)
        | none =>
            if filterKey keyOf k l = [] then none
            else some (filterKey keyOf k l) := by
  induction l with
  | nil =>
      intro gs k
      cases h : lookupGroup gs k <;> simp [strataFold, filterKey, h]
  | cons c rest ih =>
      intro gs k
      cases hc : keyOf c with
      | none =>
          have hf : filterKey keyOf k (c :: rest) = filterKey keyOf k rest := by
            simp [filterKey, hc]
          simp only [strataFold, hc]
          rw [ih, hf]
      | some k0 =>
          by_cases hk : k0 = k
          · subst hk
            have hf : filterKey keyOf k0 (c :: rest)
                = c :: filterKey keyOf k0 rest := by
              simp [filterKey, hc]
            simp only [strataFold, hc]
            rw [ih, lookupGroup_strataInsert, hf]
            cases h : lookupGroup gs k0 <;> simp [h]
          · have hf : filterKey keyOf k (c :: rest) = filterKey keyOf k rest := by
              simp [filterKey, hc, hk]
            simp only [strataFold, hc]
            rw [ih, lookupGroup_strataInsert, if_neg hk, hf]

/-- A successful lookup exhibits an entry of the dict. -/
theorem lookupGroup_mem [DecidableEq K] :
    ∀ (gs : List (K × List α)) (k : K) (g : List α),
      lookupGroup gs k = some g → (k, g) ∈ gs := by
  intro gs
  induction gs with
  | nil => intro k g h; cases h
  | cons hd tl ih =>
      intro k g h
      obtain ⟨kh, gh⟩ := hd
      by_cases hk : kh = k
      · subst hk
        simp [lookupGroup] at h
        simp [h]
      · simp [lookupGroup, hk] at h
        exact List.mem_cons_of_mem _ (ih k g h)

/-- Folding list appends equals appending the joined mapped lists. -/
theorem foldl_append_flatten (f : β → List α) :
    ∀ (gs : List β) (init : List α),
      gs.foldl (fun acc g => acc ++ f g) init = init ++ (gs.map f).flatten := by
  intro gs
  induction gs with
  | nil => intro init; simp
  | cons g tl ih => intro init; simp [ih]

/-- The stratified sampler is the concatenation of each group's
contribution in group-creation order. -/
theorem stratified_eq_join [DecidableEq K] (rand : List α → Nat → List α)
    (keyOf : α → Option K) (l : List α) (Kcap : Nat) :
    sample_candidates_stratified rand keyOf l Kcap
      = ((strataGroups keyOf l).map (fun g =>
            if g.2.length ≤ Kcap then g.2 else rand g.2 Kcap)).flatten := by
  unfold sample_candidates_stratified
  have hfun : (fun (sampled : List α) (g : K × List α) =>
        if g.2.length ≤ Kcap then sampled ++ g.2
        else sampled ++ rand g.2 Kcap)
      = fun sampled g => sampled ++
          (if g.2.length ≤ Kcap then g.2 else rand g.2 Kcap) := by
    funext sampled g
    split <;> rfl
  rw [hfun, foldl_append_flatten (fun g : K × List α =>
    if g.2.length ≤ Kcap then g.2 else rand g.2 Kcap)]
  simp

/-- C8: the stratified sampler's output size is the sum over the groups of
min(group size, K); the group of each key consists of exactly the input
items carrying that key (items whose key lookup is absent are skipped, as
the source does); and every item of a group with at most K members is
kept in the output. -/
theorem stratified_sampling_spec [DecidableEq K] [DecidableEq α]
    (rand : List α → Nat → List α) (keyOf : α → Option K) (l : List α)
    (Kcap : Nat)
    (hrand : ∀ (m : List α) (k : Nat), k ≤ m.length → (rand m k).length = k) :
    ((sample_candidates_stratified rand keyOf l Kcap).length
        = ((strataGroups keyOf l).map (fun g => min g.2.length Kcap)).sum)
    ∧ (∀ k : K,
        lookupGroup (strataGroups keyOf l) k
          = if filterKey keyOf k l = [] then none
            else some (filterKey keyOf k l))
    ∧ (∀ p ∈ strataGroups keyOf l, p.2.length ≤ Kcap →
        ∀ c ∈ p.2, c ∈ sample_candidates_stratified rand keyOf l Kcap) := by
  refine ⟨?_, ?_, ?_⟩
  · rw [stratified_eq_join, List.length_flatten, List.map_map]
    congr 1
    apply List.map_congr_left
    intro g hg
    by_cases h : g.2.length ≤ Kcap
    · simp [Function.comp, h, Nat.min_eq_left h]
    · have hK : Kcap ≤ g.2.length := by omega
      simp [Function.comp, h, hrand g.2 Kcap hK, Nat.min_eq_right hK]
  · intro k
    have hl := lookupGroup_strataFold keyOf l [] k
    simpa [strataGroups, lookupGroup] using hl
  · intro p hp hlen c hc
    rw [stratified_eq_join]
    refine List.mem_flatten.mpr
      ⟨(if p.2.length ≤ Kcap then p.2 else rand p.2 Kcap),
        List.mem_map_of_mem _ hp, ?_⟩
    rw [if_pos hlen]
    exact hc

/-- Witness for C8: two groups of sizes 2 and 1 with per-group cap 1. -/
theorem stratified_sampling_spec_witness :
    (sample_candidates_stratified (fun (m : List (Nat × Nat)) k => m.take k)
        (fun c => some c.2) [(0, 0), (1, 0), (2, 1)] 1).length
      = ((strataGroups (fun (c : Nat × Nat) => some c.2)
            [(0, 0), (1, 0), (2, 1)]).map
            (fun g => min g.2.length 1)).sum :=
  (stratified_sampling_spec (fun m k => m.take k) (fun c => some c.2)
      [(0, 0), (1, 0), (2, 1)] 1
      (fun m k h => by simp [List.length_take]; omega)).1

end XRay
